import Mathlib

/-!
Verification of the scoring and profiling core of the voyageai repository.

The definitions below are shallow embeddings of the Python source:
* `src/recommendation_engine.py` — `ConfidenceEngine` (budget, weather,
  crowd, DNA-match, category and seasonal component scores, the weighted
  geometric-mean aggregation and the confidence calibration curve);
* `src/travel_dna.py` — `TravelDNAProfiler.analyze_responses` (quiz
  response aggregation and normalization over the seven travel
  dimensions).

Machine floats are modelled by exact rationals (`ℚ`); the transcendental
aggregation (`np.log` / `np.exp`) is modelled over `ℝ`.  Python code that
can raise (`list.index`, division by zero) is modelled with `Except`.
-/

namespace Voyageai

/-! ### Confidence calibration curve (`_apply_confidence_curve`) -/

/-- Embedding of `ConfidenceEngine._apply_confidence_curve`
(src/recommendation_engine.py lines 340-357).  Generic over a linear
ordered field so it can be used both over `ℚ` (exact evaluation) and over
`ℝ` (inside the aggregation pipeline). -/
def applyConfidenceCurve {α : Type} [LinearOrderedField α] (score : α) : α :=
  if 85 ≤ score then score + (100 - score) * 0.3
  else if 70 ≤ score then score
  else if 50 ≤ score then score * 0.9
  else score * 0.7

/-! ### Budget score (`_calculate_budget_score`) -/

/-- Embedding of `ConfidenceEngine._calculate_budget_score`
(src/recommendation_engine.py lines 135-147). -/
def budgetScore (destinationCost userMin userMax : ℚ) : ℚ :=
  if destinationCost ≤ userMin then
    8 + 2 * (destinationCost / userMin)
  else if destinationCost ≤ userMax then
    10 - (destinationCost - userMin) / (userMax - userMin) * 4
  else
    max 0 (6 * (1 / (destinationCost / userMax)))

/-! ### Travel DNA profiler (`src/travel_dna.py`)

The seven psychological travel dimensions, the static quiz table of
`TravelDNAProfiler._initialize_questions`, and the aggregation /
normalization part of `TravelDNAProfiler.analyze_responses` (steps 1-4 of
the algorithm; the archetype-classification tail operates on the
dimension map produced here and is not needed by any claim).

Python particulars modelled explicitly:
* `question["options"].index(response)` raises `ValueError` when the
  response is not among the options — modelled as `Except.error
  .valueError` (the spec's `InvalidResponseKind`);
* the normalization loop divides by `max(dimension_scores.values())`,
  which raises `ZeroDivisionError` when that maximum is 0 — modelled as
  `Except.error .zeroDivision`;
* `int(response)` on a slider answer is modelled by carrying the integer
  in the `Answer.scale` constructor (a non-numeric slider answer would
  raise; numeric strings are not modelled as no claim involves them);
* dict iteration follows insertion order, so responses are a list of
  pairs processed in order.
-/

/-- The seven travel dimensions (`dimension_scores` keys). -/
inductive TravelDim where
  | adventure | comfort | culture | luxury | nature | urban | social
  deriving DecidableEq, Repr

/-- The dimensions in the insertion order of the Python dict. -/
def allDims : List TravelDim :=
  [.adventure, .comfort, .culture, .luxury, .nature, .urban, .social]

/-- A raw quiz answer: a selected option string, or a numeric slider value
(the integer produced by `int(response)`, carried as a rational so that it
can enter the score arithmetic directly). -/
inductive Answer where
  | choice (s : String)
  | scale (n : ℚ)
  deriving DecidableEq

/-- Question types recognised by `analyze_responses`. -/
inductive QType where
  | multipleChoice | slider | selectbox
  deriving DecidableEq

/-- A quiz question as in `_initialize_questions`. -/
structure QuizQuestion where
  id : String
  question : String
  qtype : QType
  options : List String := []
  qrange : Option (ℤ × ℤ) := none
  dimensions : List TravelDim

/-- Question q1 of the static table. -/
def q1Adventure : QuizQuestion :=
  { id := "q1_adventure"
    question := "When you hear 'vacation', what's your first instinct?"
    qtype := .multipleChoice
    options :=
      [ "Find the most thrilling activity available"
      , "Research historical and cultural sites"
      , "Book the most luxurious accommodation"
      , "Look for natural landscapes and wildlife"
      , "Explore city attractions and nightlife"
      , "Find the most relaxing beach or spa"
      , "Plan activities where I can meet new people" ]
    dimensions := [.adventure, .culture, .luxury, .nature, .urban, .comfort, .social] }

/-- Question q2 of the static table. -/
def q2Budget : QuizQuestion :=
  { id := "q2_budget"
    question := "How do you typically allocate your travel budget?"
    qtype := .multipleChoice
    options :=
      [ "Experiences and adventures first"
      , "Museums, tours, and cultural activities"
      , "Premium accommodations and dining"
      , "Outdoor gear and park fees"
      , "Urban attractions and transportation"
      , "Comfort and relaxation services"
      , "Social activities and group experiences" ]
    dimensions := [.adventure, .culture, .luxury, .nature, .urban, .comfort, .social] }

/-- Question q3 of the static table (slider). -/
def q3Pace : QuizQuestion :=
  { id := "q3_pace"
    question := "What pace feels most natural for your travels?"
    qtype := .slider
    qrange := some (1, 10)
    dimensions := [.adventure, .comfort] }

/-- Question q4 of the static table. -/
def q4Accommodation : QuizQuestion :=
  { id := "q4_accommodation"
    question := "Your ideal accommodation is..."
    qtype := .multipleChoice
    options :=
      [ "A base camp for daily adventures"
      , "Centrally located for cultural access"
      , "A 5-star resort with all amenities"
      , "An eco-lodge in nature"
      , "A trendy hotel in the city center"
      , "A quiet retreat with spa facilities"
      , "A social hostel or guesthouse" ]
    dimensions := [.adventure, .culture, .luxury, .nature, .urban, .comfort, .social] }

/-- Question q5 of the static table (slider). -/
def q5Planning : QuizQuestion :=
  { id := "q5_planning"
    question := "How structured do you prefer your itinerary?"
    qtype := .slider
    qrange := some (1, 10)
    dimensions := [.adventure, .comfort] }

/-- Question q6 of the static table (selectbox). -/
def q6Activities : QuizQuestion :=
  { id := "q6_activities"
    question := "Which activities excite you most?"
    qtype := .selectbox
    options :=
      [ "Hiking, rafting, or extreme sports"
      , "Museum visits and historical tours"
      , "Fine dining and luxury shopping"
      , "Wildlife safaris and nature walks"
      , "City tours and architectural sights"
      , "Spa treatments and beach lounging"
      , "Local festivals and social events" ]
    dimensions := [.adventure, .culture, .luxury, .nature, .urban, .comfort, .social] }

/-- Question q7 of the static table (slider). -/
def q7Social : QuizQuestion :=
  { id := "q7_social"
    question := "How important are social interactions during travel?"
    qtype := .slider
    qrange := some (1, 10)
    dimensions := [.social, .comfort] }

/-- Question q8 of the static table. -/
def q8Learning : QuizQuestion :=
  { id := "q8_learning"
    question := "What do you want to bring home from your travels?"
    qtype := .multipleChoice
    options :=
      [ "Adrenaline-filled memories"
      , "Cultural understanding and knowledge"
      , "Luxury experiences and photos"
      , "Connection with nature"
      , "Urban experiences and trends"
      , "Complete relaxation and rejuvenation"
      , "New friendships and connections" ]
    dimensions := [.adventure, .culture, .luxury, .nature, .urban, .comfort, .social] }

/-- The static quiz table of `TravelDNAProfiler._initialize_questions`. -/
def quizQuestions : List QuizQuestion :=
  [q1Adventure, q2Budget, q3Pace, q4Accommodation, q5Planning,
   q6Activities, q7Social, q8Learning]

/-- Dimension accumulators (`dimension_scores`). -/
abbrev DimScores := TravelDim → ℚ

/-- Per-dimension response counts (`response_count`). -/
abbrev DimCounts := TravelDim → ℕ

/-- `dimension_scores[d] += x`. -/
def addAt (f : DimScores) (d : TravelDim) (x : ℚ) : DimScores :=
  fun t => if t = d then f t + x else f t

/-- `response_count[d] += 1`. -/
def bumpCount (f : DimCounts) (d : TravelDim) : DimCounts :=
  fun t => if t = d then f t + 1 else f t

/-- Errors `analyze_responses` can raise: `ValueError` from
`list.index` (the spec's `InvalidResponseKind`) and `ZeroDivisionError`
from the unguarded normalization. -/
inductive DnaError where
  | valueError | zeroDivision
  deriving DecidableEq

/-- `next((q for q in self.questions if q["id"] == q_id), None)`. -/
def findQuestion (qid : String) : Option QuizQuestion :=
  quizQuestions.find? (fun q => q.id = qid)

/-- One iteration of the response loop body of `analyze_responses`, given
the already-resolved question.  The `multiple_choice` and `selectbox`
branches of the source are identical, so they share one arm here. -/
def applyQuestion (q : QuizQuestion) (a : Answer) (st : DimScores × DimCounts) :
    Except DnaError (DimScores × DimCounts) :=
  match q.qtype with
  | .multipleChoice | .selectbox =>
    match a with
    | .choice s =>
      match q.options.indexOf? s with
      | none => .error .valueError
      | some i =>
        if h : i < q.dimensions.length then
          .ok (addAt st.1 (q.dimensions.get ⟨i, h⟩) 9,
               bumpCount st.2 (q.dimensions.get ⟨i, h⟩))
        else .ok st
    | .scale _ => .error .valueError
  | .slider =>
    match q.dimensions with
    | [d1, d2] =>
      match a with
      | .scale n =>
        .ok (addAt (addAt st.1 d1 n) d2 (10 - n),
             bumpCount (bumpCount st.2 d1) d2)
      | .choice _ => .error .valueError
    | _ => .ok st

/-- One iteration of the response loop of `analyze_responses`: resolve the
question (unknown ids are skipped silently) and apply it. -/
def stepResponse (st : DimScores × DimCounts) (p : String × Answer) :
    Except DnaError (DimScores × DimCounts) :=
  match findQuestion p.1 with
  | none => .ok st
  | some q => applyQuestion q p.2 st

/-- The full response loop, in dict insertion order; the first raised
error aborts the whole analysis, as in Python. -/
def accumulate : DimScores × DimCounts → List (String × Answer) →
    Except DnaError (DimScores × DimCounts)
  | st, [] => .ok st
  | st, p :: rest =>
    match stepResponse st p with
    | .error e => .error e
    | .ok st2 => accumulate st2 rest

/-- All accumulators start at 0. -/
def initScores : DimScores := fun _ => 0

/-- All response counts start at 0. -/
def initCounts : DimCounts := fun _ => 0

/-- The averaging loop: `dimension_scores[dim] /= response_count[dim]`
for dimensions with a positive count. -/
def averageDims (s : DimScores) (c : DimCounts) : DimScores :=
  fun t => if 0 < c t then s t / (c t : ℚ) else s t

/-- `max(dimension_scores.values())` over the seven entries, in dict
insertion order.  (The Python guard `if dimension_scores.values() else 1`
tests non-emptiness, and the dict always has seven keys, so the `else 1`
branch is unreachable and the maximum is always taken.) -/
def maxDimValue (s : DimScores) : ℚ :=
  max (s .adventure) (max (s .comfort) (max (s .culture)
    (max (s .luxury) (max (s .nature) (max (s .urban) (s .social))))))

/-- The normalization loop:
`dimension_scores[dim] = (dimension_scores[dim] / max_score) * 10`. -/
def normalizeDims (s : DimScores) : DimScores :=
  fun t => s t / maxDimValue s * 10

/-- Steps 1-4 of `TravelDNAProfiler.analyze_responses`
(src/travel_dna.py lines 213-271): accumulate, average, normalize.
Returns the normalized `dimensions` map of the profile, or the Python
exception the source would raise. -/
def analyzeResponsesDimensions (responses : List (String × Answer)) :
    Except DnaError DimScores :=
  match accumulate (initScores, initCounts) responses with
  | .error e => .error e
  | .ok (s, c) =>
    if maxDimValue (averageDims s c) = 0 then .error .zeroDivision
    else .ok (normalizeDims (averageDims s c))

/-- The accumulator scores reached by a response list (0 on error):
extraction helper for concrete evaluations. -/
def accumScoresOf (responses : List (String × Answer)) : DimScores :=
  match accumulate (initScores, initCounts) responses with
  | .ok st => st.1
  | .error _ => initScores

/-- The normalized dimension map of a response list (0 on error):
extraction helper for concrete evaluations. -/
def dimsOf (responses : List (String × Answer)) : DimScores :=
  match analyzeResponsesDimensions responses with
  | .ok d => d
  | .error _ => initScores

/-- A slider answer within the question table's declared `[1, 10]` range
(`True` for option answers). -/
def answerValid : Answer → Bool
  | .scale n => decide (1 ≤ n ∧ n ≤ 10)
  | .choice _ => true

/-- Every slider answer of the response set is within `[1, 10]`. -/
def scaleValid (responses : List (String × Answer)) : Prop :=
  ∀ p ∈ responses, answerValid p.2 = true

instance (responses : List (String × Answer)) : Decidable (scaleValid responses) := by
  unfold scaleValid; infer_instance

/-! ### Seasonal score (`_calculate_seasonal_score`)

Python's `best_season.split(",")` and `s.strip()` are modelled by
explicit structural recursion over the character list (Lean's own
`String.splitOn`/`String.trim` use well-founded recursion, which the
kernel cannot evaluate); the semantics match `str.split(",")` and
`str.strip()` on ASCII whitespace. -/

/-- Helper for `splitOnComma`: accumulates the current chunk reversed. -/
def splitOnCommaAux : List Char → List Char → List String
  | [], acc => [String.mk acc.reverse]
  | c :: cs, acc =>
    if c = ',' then String.mk acc.reverse :: splitOnCommaAux cs []
    else splitOnCommaAux cs (c :: acc)

/-- Python `s.split(",")`. -/
def splitOnComma (s : String) : List String :=
  splitOnCommaAux s.data []

/-- Python `s.strip()`: drop leading and trailing whitespace. -/
def stripStr (s : String) : String :=
  String.mk (((s.data.dropWhile Char.isWhitespace).reverse.dropWhile
    Char.isWhitespace).reverse)

/-- The `month_to_season` dict of `_calculate_seasonal_score`; lookups of
unknown months default to `"Spring"` (`dict.get(travel_month, "Spring")`). -/
def monthToSeasonTable : List (ℕ × String) :=
  [(12, "Winter"), (1, "Winter"), (2, "Winter"),
   (3, "Spring"), (4, "Spring"), (5, "Spring"),
   (6, "Summer"), (7, "Summer"), (8, "Summer"),
   (9, "Fall"), (10, "Fall"), (11, "Fall")]

/-- `month_to_season.get(travel_month, "Spring")`. -/
def monthToSeason (m : ℕ) : String :=
  (monthToSeasonTable.lookup m).getD "Spring"

/-- `season_order = ["Winter", "Spring", "Summer", "Fall"]`. -/
def seasonOrder : List String := ["Winter", "Spring", "Summer", "Fall"]

/-- `abs(travel_idx - idx)` on indices. -/
def seasonDistance (i j : ℕ) : ℕ := ((i : ℤ) - (j : ℤ)).natAbs

/-- Embedding of `ConfidenceEngine._calculate_seasonal_score`
(src/recommendation_engine.py lines 231-274).  `travelMonth` is the month
of the first travel date (`travel_dates[0].month`); `none` models absent
travel dates.  The `datetime.now()` fallback for malformed date tuples is
not modelled (no claim involves it).  The source's
`any(s in season_parts for s in ["All", "Year-round"])` is written as the
equivalent membership disjunction. -/
def seasonalScore (bestSeason : String) (travelMonth : Option ℕ) : ℚ :=
  match travelMonth with
  | none => 5
  | some m =>
    let travelSeason := monthToSeason m
    let seasonParts := (splitOnComma bestSeason).map (fun x => stripStr x)
    if travelSeason ∈ seasonParts then 9
    else if "All" ∈ seasonParts ∨ "Year-round" ∈ seasonParts then 7
    else
      let travelIdx := seasonOrder.indexOf travelSeason
      match (seasonParts.filter (fun x => x ∈ seasonOrder)).map
          (fun x => seasonOrder.indexOf x) with
      | [] => 5
      | i :: is =>
        if (is.foldl (fun acc j => min acc (seasonDistance travelIdx j))
            (seasonDistance travelIdx i)) = 1 then 6
        else 3

/-! ### The claim's reading of the seasonal score (for C5)

A second, spec-side definition over a `Season` datatype, following the
claim's words: derive the travel month's season, 9.0 when listed, 7.0 on
All/Year-round, otherwise distance to the nearest listed season in the
season order — parameterized by the distance function, since the claim
says CIRCULAR distance while the code computes plain index distance. -/

/-- The four seasons, in the order `[Winter, Spring, Summer, Fall]`. -/
inductive Season where
  | winter | spring | summer | fall
  deriving DecidableEq

/-- Index of a season in the season order. -/
def seasonIdx : Season → ℕ
  | .winter => 0
  | .spring => 1
  | .summer => 2
  | .fall => 3

/-- Name of a season as it appears in `best_season` fields. -/
def seasonName : Season → String
  | .winter => "Winter"
  | .spring => "Spring"
  | .summer => "Summer"
  | .fall => "Fall"

/-- Modelled from the spec: recognise one `best_season` entry. -/
def parseSeason (s : String) : Option Season :=
  if s = "Winter" then some .winter
  else if s = "Spring" then some .spring
  else if s = "Summer" then some .summer
  else if s = "Fall" then some .fall
  else none

/-- Modelled from the spec: the fixed month→season table (Dec–Feb Winter,
Mar–May Spring, Jun–Aug Summer, Sep–Nov Fall), for months 1-12. -/
def seasonOfMonth (m : ℕ) : Season :=
  if m = 12 ∨ m = 1 ∨ m = 2 then .winter
  else if 3 ≤ m ∧ m ≤ 5 then .spring
  else if 6 ≤ m ∧ m ≤ 8 then .summer
  else .fall

/-- Circular distance in the cyclic season order, as the claim reads it
(Winter and Fall are adjacent). -/
def circularSeasonDistance (a b : Season) : ℕ :=
  min (seasonDistance (seasonIdx a) (seasonIdx b))
    (4 - seasonDistance (seasonIdx a) (seasonIdx b))

/-- Plain (non-circular) index distance, as the code computes it. -/
def linearSeasonDistance (a b : Season) : ℕ :=
  seasonDistance (seasonIdx a) (seasonIdx b)

/-- Modelled from the spec (claim C5): the seasonal score as the claim
describes it, parameterized by the season-distance function. -/
def specSeasonalScore (dist : Season → Season → ℕ) (bestSeason : String)
    (m : ℕ) : ℚ :=
  let travel := seasonOfMonth m
  let seasonParts := (splitOnComma bestSeason).map (fun x => stripStr x)
  let listed := seasonParts.filterMap parseSeason
  if travel ∈ listed then 9
  else if "All" ∈ seasonParts ∨ "Year-round" ∈ seasonParts then 7
  else
    match listed with
    | [] => 5
    | σ :: σs =>
      if (σs.foldl (fun acc τ => min acc (dist travel τ)) (dist travel σ))
          = 1 then 6
      else 3

/-! ### The rest of the confidence engine (`src/recommendation_engine.py`)

Embeddings of the remaining component scores, the weighted geometric-mean
aggregation and the recommendation/breakdown builders, needed by claims
C9 and C10. -/

/-- A destination record (the `Destination` dataclass / the catalog dict
shape of `synthetic_data.generate_destinations`).  `dna_affinity` is an
association list so that the `in` membership tests of
`_calculate_dna_match` are explicit. -/
structure Destination where
  id : String
  name : String
  country : String
  category : String
  description : String
  average_cost : ℚ
  best_season : String
  travel_time : ℚ
  highlights : List String
  weather_score : ℚ
  crowd_score : ℚ
  dna_affinity : List (TravelDim × ℚ)

/-- The user-preference dict consumed by `calculate_recommendations`.
`budget_min`/`budget_max` are accessed directly (required keys); the
others are read with `.get` and a default, modelled by `Option` plus
`getD` at the use sites.  `travel_dates` is the month of the first travel
date. -/
structure TripPrefs where
  budget_min : ℚ
  budget_max : ℚ
  weather_priority : Option ℚ := none
  crowd_tolerance : Option ℚ := none
  travel_dates : Option ℕ := none
  interests : Option (List String) := none
  travel_dna : Option DimScores := none

/-- Embedding of `ConfidenceEngine._get_seasonal_boost`
(src/recommendation_engine.py lines 276-299): peak months 6,7,8,12 →
0.8; shoulder months 4,5,9,10,11 → 1.0; otherwise → 1.2. -/
def seasonalBoost (m : ℕ) : ℚ :=
  if m ∈ [6, 7, 8, 12] then 0.8
  else if m ∈ [4, 5, 9, 10, 11] then 1.0
  else 1.2

/-- Embedding of `ConfidenceEngine._calculate_weather_score`
(src/recommendation_engine.py lines 149-163). -/
def weatherScore (destWeather userPriority : ℚ) (travelMonth : Option ℕ) : ℚ :=
  let adjusted := destWeather * (0.5 + 0.5 * (userPriority / 10))
  match travelMonth with
  | some m => min 10 (adjusted * (0.7 + 0.3 * seasonalBoost m))
  | none => min 10 adjusted

/-- Embedding of `ConfidenceEngine._calculate_crowd_score`
(src/recommendation_engine.py lines 165-180).  The `travel_dates`
parameter of the source is unused there and therefore omitted. -/
def crowdScore (destCrowd userTolerance : ℚ) : ℚ :=
  let inverted := 10 - destCrowd
  let toleranceFactor := userTolerance / 5
  if toleranceFactor ≤ 1 then min 10 ((inverted * (1 + (1 - toleranceFactor))) / 2)
  else min 10 ((destCrowd * (toleranceFactor - 1)) / 2)

/-- Embedding of `ConfidenceEngine._calculate_dna_match`
(src/recommendation_engine.py lines 182-207).  The profile's
`dimensions` dict always holds the seven dimensions in `allDims`
insertion order (it is produced by `analyze_responses`), so the
`for dimension, user_score in dna_dimensions.items()` loop is a fold over
`allDims`. -/
def dnaMatch (destination : Destination) (travelDna : Option DimScores) : ℚ :=
  match travelDna with
  | none => 5
  | some dna =>
    if destination.dna_affinity.isEmpty then 5
    else
      let acc := allDims.foldl (fun (acc : ℚ × ℚ) d =>
        match destination.dna_affinity.lookup d with
        | some destScore =>
          (acc.1 + (10 - |dna d - destScore|) * (dna d / 10),
           acc.2 + dna d / 10)
        | none => acc) (0, 0)
      if 0 < acc.2 then acc.1 / acc.2 else 5

/-- The `category_mapping` dict of `_calculate_category_score`. -/
def categoryMapping : List (String × List String) :=
  [("Adventure", ["Adventure", "Mountains"]),
   ("Cultural", ["History", "Cities", "Culture"]),
   ("Luxury", ["Shopping", "Wellness"]),
   ("Nature", ["Beaches", "Mountains", "Nature"]),
   ("Urban", ["Cities", "Food", "Shopping"]),
   ("Beach", ["Beaches", "Wellness"]),
   ("Wellness", ["Wellness", "Nature"])]

/-- Embedding of `ConfidenceEngine._calculate_category_score`
(src/recommendation_engine.py lines 209-229).  The trailing
`if user_interests else 5.0` of the source is dead code (the empty case
returns 5.0 earlier) and is not repeated. -/
def categoryScore (destinationCategory : String) (userInterests : List String) : ℚ :=
  if userInterests.isEmpty then 5
  else
    let keywords := (categoryMapping.lookup destinationCategory).getD []
    let matchCount := userInterests.countP (fun i => i ∈ keywords)
    ((matchCount : ℚ) / (userInterests.length : ℚ)) * 10

/-- The six component scores (`scores` dict of
`_calculate_individual_scores`). -/
structure ComponentScores where
  budget_score : ℚ
  weather_score : ℚ
  crowd_score : ℚ
  dna_match : ℚ
  category_score : ℚ
  seasonal_score : ℚ
  deriving DecidableEq

/-- Embedding of `ConfidenceEngine._calculate_individual_scores`
(src/recommendation_engine.py lines 89-133), including the `.get`
defaults (weather_priority 5, crowd_tolerance 5, interests `[]`,
travel_dna `None`). -/
def calculateIndividualScores (destination : Destination) (prefs : TripPrefs) :
    ComponentScores :=
  { budget_score := budgetScore destination.average_cost prefs.budget_min prefs.budget_max
    weather_score := weatherScore destination.weather_score
      (prefs.weather_priority.getD 5) prefs.travel_dates
    crowd_score := crowdScore destination.crowd_score (prefs.crowd_tolerance.getD 5)
    dna_match := dnaMatch destination prefs.travel_dna
    category_score := categoryScore destination.category (prefs.interests.getD [])
    seasonal_score := seasonalScore destination.best_season prefs.travel_dates }

/-- Embedding of `ConfidenceEngine._calculate_confidence_score`
(src/recommendation_engine.py lines 301-338): weighted geometric mean
over `ℝ` (weights 0.25/0.20/0.15/0.15/0.15/0.10 in the dict's iteration
order), each score floored at 0.1 before the logarithm, scaled to 0-100,
curved, clamped to [0,100] and rounded to one decimal.  The loop filling
missing keys with 5.0 is dead here because the scores record is total.
(Python's `round` rounds halves to even; `round` here rounds halves up —
the two differ only at exact midpoints, which no claim involves.) -/
noncomputable def confidenceScore (scores : ComponentScores) : ℝ :=
  let logSum :=
    0.25 * Real.log (max 0.1 (scores.budget_score : ℝ))
    + 0.20 * Real.log (max 0.1 (scores.dna_match : ℝ))
    + 0.15 * Real.log (max 0.1 (scores.weather_score : ℝ))
    + 0.15 * Real.log (max 0.1 (scores.crowd_score : ℝ))
    + 0.15 * Real.log (max 0.1 (scores.category_score : ℝ))
    + 0.10 * Real.log (max 0.1 (scores.seasonal_score : ℝ))
  let weightSum : ℝ := 0.25 + 0.20 + 0.15 + 0.15 + 0.15 + 0.10
  let geometricMean := Real.exp (logSum / weightSum)
  let curved := applyConfidenceCurve (geometricMean * 10)
  (round (min 100 (max 0 curved) * 10) : ℝ) / 10

/-- A value of the recommendation dict. -/
inductive Val where
  | num (q : ℚ)
  | str (s : String)
  | strList (l : List String)
  | affinity (l : List (TravelDim × ℚ))
  | real (r : ℝ)
  | scores (s : ComponentScores)

/-- The destination dict as it sits in the catalog (the key set of
`synthetic_data.generate_destinations` entries). -/
def destToDict (d : Destination) : List (String × Val) :=
  [("id", .str d.id), ("name", .str d.name), ("country", .str d.country),
   ("category", .str d.category), ("description", .str d.description),
   ("average_cost", .num d.average_cost), ("best_season", .str d.best_season),
   ("travel_time", .num d.travel_time), ("highlights", .strList d.highlights),
   ("weather_score", .num d.weather_score), ("crowd_score", .num d.crowd_score),
   ("dna_affinity", .affinity d.dna_affinity)]

/-- `dict[k] = v` in lookup-shadowing style: the most recent binding for a
key wins, so `List.lookup` sees exactly Python's post-`update` dict. -/
def dictSet (m : List (String × Val)) (k : String) (v : Val) :
    List (String × Val) :=
  (k, v) :: m

/-- The per-destination body of `ConfidenceEngine.calculate_recommendations`
(src/recommendation_engine.py lines 71-85): `recommendation = dest.copy()`
followed by `recommendation.update({...})` with the keys
confidence_score, budget_score, weather_score, crowd_score, dna_match and
breakdown, in the update dict's order. -/
noncomputable def recommendationEntry (destination : Destination)
    (prefs : TripPrefs) : List (String × Val) :=
  let scores := calculateIndividualScores destination prefs
  dictSet (dictSet (dictSet (dictSet (dictSet (dictSet (destToDict destination)
    "confidence_score" (.real (confidenceScore scores)))
    "budget_score" (.num scores.budget_score))
    "weather_score" (.num scores.weather_score))
    "crowd_score" (.num scores.crowd_score))
    "dna_match" (.num scores.dna_match))
    "breakdown" (.scores scores)

/-- Embedding of `ConfidenceEngine.calculate_recommendations`
(src/recommendation_engine.py lines 57-87): one enriched dict per catalog
entry, in catalog order. -/
noncomputable def calculateRecommendations (destinations : List Destination)
    (prefs : TripPrefs) : List (List (String × Val)) :=
  destinations.map (fun d => recommendationEntry d prefs)

/-- The fields of `get_recommendation_breakdown` the claims are about.
The three advisory string lists (`primary_strengths`,
`potential_concerns`, `optimization_suggestions`) are presentation text
built from the same `scores`; no claim concerns them, and the
`optimization_suggestions` entries interpolate formatted floats, so they
are not embedded. -/
structure RecommendationBreakdown where
  confidence_score : ℝ
  component_scores : ComponentScores

/-- Embedding of `ConfidenceEngine.get_recommendation_breakdown`
(src/recommendation_engine.py lines 359-375): recompute the component
scores with `_calculate_individual_scores` and aggregate them with
`_calculate_confidence_score`, exactly as `calculate_recommendations`
does. -/
noncomputable def getRecommendationBreakdown (destination : Destination)
    (prefs : TripPrefs) : RecommendationBreakdown :=
  { confidence_score := confidenceScore (calculateIndividualScores destination prefs)
    component_scores := calculateIndividualScores destination prefs }

/-- Clamp to `[1, 10]` as the claim's words describe (`s` is the numeric
answer clamped to `[1, 10]`).  Modelled from the spec; the source has no
such clamp. -/
def clampSpec (v lo hi : ℚ) : ℚ := min hi (max lo v)

/-! ### Theorems for claim C1 (calibration curve) -/

/-- C1 counterexample: the calibration curve is NOT continuous at the
piece boundary 50 — taking ε = 5, every δ-neighbourhood of 50 contains a
point `x < 50` with `|curve x − curve 50| = 45 − 0.7·x ≥ 10 > 5`.  This
refutes the claim that the curve is continuous at its piece boundaries. -/
theorem c1_curve_not_continuous_at_50 :
    ¬ (∀ ε : ℚ, 0 < ε → ∃ δ : ℚ, 0 < δ ∧
        ∀ x : ℚ, |x - 50| < δ → |applyConfidenceCurve x - applyConfidenceCurve 50| < ε) := by
  intro h
  obtain ⟨δ, hδ, hx⟩ := h 5 (by norm_num)
  have hd1 : (0 : ℚ) < min δ 1 := lt_min hδ one_pos
  have hd2 : min δ 1 ≤ δ := min_le_left _ _
  have hnear : |(50 : ℚ) - min δ 1 / 2 - 50| < δ := by
    rw [show (50 : ℚ) - min δ 1 / 2 - 50 = -(min δ 1 / 2) by ring, abs_neg,
        abs_of_pos (by linarith)]
    linarith
  have h5 := hx (50 - min δ 1 / 2) hnear
  have hcx : applyConfidenceCurve ((50 : ℚ) - min δ 1 / 2)
      = ((50 : ℚ) - min δ 1 / 2) * 0.7 := by
    unfold applyConfidenceCurve
    rw [if_neg (by intro hc; linarith), if_neg (by intro hc; linarith),
        if_neg (by intro hc; linarith)]
  have hc50 : applyConfidenceCurve (50 : ℚ) = 45 := by
    unfold applyConfidenceCurve; norm_num
  rw [hcx, hc50] at h5
  have := (abs_lt.mp h5).1
  linarith

/-- C1 amended: the calibration curve is monotone non-decreasing on all
inputs, and the probe values at 49.9/50/50.1, 69.9/70/70.1, 84.9/85/85.1
follow the piecewise rule (score ≥ 85 → score + (100−score)·0.3;
70 ≤ score < 85 → unchanged; 50 ≤ score < 70 → score·0.9;
score < 50 → score·0.7) without order inversion.  (Continuity at the
boundaries fails: each boundary has an upward jump, see the
counterexample.) -/
theorem c1_curve_monotone_and_piecewise :
    (∀ x y : ℚ, x ≤ y → applyConfidenceCurve x ≤ applyConfidenceCurve y) ∧
    applyConfidenceCurve (49.9 : ℚ) = 34.93 ∧
    applyConfidenceCurve (50 : ℚ) = 45 ∧
    applyConfidenceCurve (50.1 : ℚ) = 45.09 ∧
    applyConfidenceCurve (69.9 : ℚ) = 62.91 ∧
    applyConfidenceCurve (70 : ℚ) = 70 ∧
    applyConfidenceCurve (70.1 : ℚ) = 70.1 ∧
    applyConfidenceCurve (84.9 : ℚ) = 84.9 ∧
    applyConfidenceCurve (85 : ℚ) = 89.5 ∧
    applyConfidenceCurve (85.1 : ℚ) = 89.57 := by
  refine ⟨?_, ?_, ?_, ?_, ?_, ?_, ?_, ?_, ?_, ?_⟩
  · intro x y hxy
    unfold applyConfidenceCurve
    split_ifs <;> linarith
  all_goals (unfold applyConfidenceCurve; norm_num)

/-- Witness for the monotonicity hypothesis of the C1 amended theorem:
instantiated across the 50 boundary. -/
theorem c1_curve_monotone_witness :
    (49.9 : ℚ) ≤ 50.1 ∧
      applyConfidenceCurve (49.9 : ℚ) ≤ applyConfidenceCurve (50.1 : ℚ) :=
  ⟨by norm_num, c1_curve_monotone_and_piecewise.1 49.9 50.1 (by norm_num)⟩

/-- Branch lemma: cost at or below `budget_min`. -/
lemma budgetScore_low {c umin umax : ℚ} (h : c ≤ umin) :
    budgetScore c umin umax = 8 + 2 * (c / umin) := by
  unfold budgetScore; rw [if_pos h]

/-- Branch lemma: cost strictly between `budget_min` and `budget_max`. -/
lemma budgetScore_mid {c umin umax : ℚ} (h1 : umin < c) (h2 : c ≤ umax) :
    budgetScore c umin umax = 10 - (c - umin) / (umax - umin) * 4 := by
  unfold budgetScore; rw [if_neg (not_le.mpr h1), if_pos h2]

/-- Branch lemma: cost above `budget_max`. -/
lemma budgetScore_over {c umin umax : ℚ} (hmm : umin ≤ umax) (h : umax < c) :
    budgetScore c umin umax = max 0 (6 * (1 / (c / umax))) := by
  unfold budgetScore
  rw [if_neg (not_le.mpr (lt_of_le_of_lt hmm h)), if_neg (not_le.mpr h)]

/-- The overshoot branch value rewritten as an honest fraction. -/
lemma overshoot_eq {c umax : ℚ} :
    6 * (1 / (c / umax)) = 6 * umax / c := by
  rw [one_div_div, mul_div_assoc]

/-! ### Theorems for claim C7 (budget-score monotonicity) -/

/-- C7: the budget score is monotone non-increasing in destination cost on
the range from `budget_min` upward: for `0 < budget_min ≤ budget_max` and
`budget_min ≤ c1 ≤ c2`, the score at `c2` is at most the score at `c1`.
This covers the interpolation branch (10 at min, 6 at max) and the
overshoot branch `max 0 (6/(cost/budget_max))`. -/
theorem c7_budget_score_antitone (userMin userMax c1 c2 : ℚ)
    (hmin : 0 < userMin) (hmm : userMin ≤ userMax)
    (hc1 : userMin ≤ c1) (hc12 : c1 ≤ c2) :
    budgetScore c2 userMin userMax ≤ budgetScore c1 userMin userMax := by
  have hmax : 0 < userMax := lt_of_lt_of_le hmin hmm
  rcases le_or_lt c2 userMin with h2min | h2min
  · -- both costs pinned to userMin: both scores are 10
    have e2 : c2 = userMin := le_antisymm h2min (le_trans hc1 hc12)
    have e1 : c1 = userMin := le_antisymm (le_trans hc12 h2min) hc1
    rw [e1, e2]
  · rcases le_or_lt c2 userMax with h2max | h2max
    · -- c2 in the interpolation branch
      have hden : 0 < userMax - userMin := by linarith
      rw [budgetScore_mid h2min h2max]
      have ht2 : 0 ≤ (c2 - userMin) / (userMax - userMin) :=
        div_nonneg (by linarith) (le_of_lt hden)
      rcases le_or_lt c1 userMin with h1min | h1min
      · -- c1 = userMin: score1 = 10
        have e1 : c1 = userMin := le_antisymm h1min hc1
        rw [e1, budgetScore_low (le_refl userMin), div_self (ne_of_gt hmin)]
        nlinarith
      · -- both in the interpolation branch: antitone
        rw [budgetScore_mid h1min (le_trans hc12 h2max)]
        have key : (c2 - userMin) / (userMax - userMin)
            - (c1 - userMin) / (userMax - userMin)
            = (c2 - c1) / (userMax - userMin) := by
          rw [div_sub_div_same]; ring_nf
        have hpos : 0 ≤ (c2 - c1) / (userMax - userMin) :=
          div_nonneg (by linarith) (le_of_lt hden)
        nlinarith
    · -- c2 in the overshoot branch
      have hc2pos : 0 < c2 := lt_trans hmax h2max
      rw [budgetScore_over hmm h2max, overshoot_eq]
      have hs2 : 6 * userMax / c2 ≤ 6 := by
        rw [div_le_iff₀ hc2pos]; nlinarith
      have hs2' : max 0 (6 * userMax / c2) ≤ 6 :=
        max_le (by norm_num) hs2
      rcases le_or_lt c1 userMin with h1min | h1min
      · have e1 : c1 = userMin := le_antisymm h1min hc1
        rw [e1, budgetScore_low (le_refl userMin), div_self (ne_of_gt hmin)]
        linarith
      · rcases le_or_lt c1 userMax with h1max | h1max
        · -- c1 interpolation (≥ 6), c2 overshoot (≤ 6)
          have hden : 0 < userMax - userMin := by linarith
          rw [budgetScore_mid h1min h1max]
          have ht1 : (c1 - userMin) / (userMax - userMin) ≤ 1 :=
            (div_le_one hden).mpr (by linarith)
          nlinarith
        · -- both overshoot: 6·umax/c antitone in c
          have hc1pos : 0 < c1 := lt_trans hmax h1max
          rw [budgetScore_over hmm h1max, overshoot_eq]
          have : 6 * userMax / c2 ≤ 6 * userMax / c1 := by
            rw [div_le_div_iff₀ hc2pos hc1pos]; nlinarith
          exact max_le_max (le_refl 0) this

/-- Witness for C7: the example from the spec — budgets 1000/3000, costs
2000 (interpolation branch) and 3500 (overshoot branch). -/
theorem c7_budget_score_antitone_witness :
    (0 : ℚ) < 1000 ∧ (1000 : ℚ) ≤ 3000 ∧ (1000 : ℚ) ≤ 2000 ∧ (2000 : ℚ) ≤ 3500 ∧
      budgetScore 3500 1000 3000 ≤ budgetScore 2000 1000 3000 :=
  ⟨by norm_num, by norm_num, by norm_num, by norm_num,
    c7_budget_score_antitone 1000 3000 2000 3500
      (by norm_num) (by norm_num) (by norm_num) (by norm_num)⟩

/-! ### Theorems for claim C8 (low-budget bonus branch) -/

/-- C8 counterexample: the negation of the claim.  The low-budget bonus
branch can never exceed 10: there are NO cost and budgets with
`0 < budget_min ≤ budget_max` and `cost ≤ budget_min` whose budget score
is strictly greater than 10, because `cost/budget_min ≤ 1` forces
`8 + 2·(cost/budget_min) ≤ 10`. -/
theorem c8_no_overshoot_above_10 :
    ¬ ∃ (c umin umax : ℚ), 0 < umin ∧ umin ≤ umax ∧ c ≤ umin ∧
        10 < budgetScore c umin umax := by
  rintro ⟨c, umin, umax, h1, _h2, h3, h4⟩
  rw [budgetScore_low h3] at h4
  have : c / umin ≤ 1 := (div_le_one h1).mpr h3
  linarith

/-- C8 amended: on the low-budget branch (`cost ≤ budget_min`,
`budget_min > 0`) the budget score `8 + 2·(cost/budget_min)` is always at
most 10, attaining exactly 10 when `cost = budget_min`. -/
theorem c8_low_budget_branch_bounded (c umin umax : ℚ)
    (hmin : 0 < umin) (hc : c ≤ umin) :
    budgetScore c umin umax ≤ 10 ∧ (c = umin → budgetScore c umin umax = 10) := by
  constructor
  · rw [budgetScore_low hc]
    have : c / umin ≤ 1 := (div_le_one hmin).mpr hc
    linarith
  · intro he
    rw [budgetScore_low hc, he, div_self (ne_of_gt hmin)]
    norm_num

/-- Witness for C8 amended: cost 500 under budget_min 1000 scores 9 ≤ 10,
and cost 1000 at budget_min 1000 scores exactly 10. -/
theorem c8_low_budget_branch_bounded_witness :
    (0 : ℚ) < 1000 ∧ (500 : ℚ) ≤ 1000 ∧
      (budgetScore 500 1000 2000 ≤ 10 ∧
        ((500 : ℚ) = 1000 → budgetScore 500 1000 2000 = 10)) :=
  ⟨by norm_num, by norm_num,
    c8_low_budget_branch_bounded 500 1000 2000 (by norm_num) (by norm_num)⟩

/-! ### Theorem for claim C2 (invalid choice answer crashes the analysis) -/

/-- C2 (code bug): an out-of-vocabulary choice answer does NOT merely
invalidate that single answer — `list.index` raises `ValueError` and the
whole analysis aborts, discarding the contribution of the valid slider
answer processed before it.  Both orderings abort identically, so no
other dimension score is ever produced. -/
theorem c2_invalid_option_aborts_analysis :
    analyzeResponsesDimensions
      [("q3_pace", Answer.scale 5), ("q1_adventure", Answer.choice "Sailing")]
      = .error .valueError ∧
    analyzeResponsesDimensions
      [("q1_adventure", Answer.choice "Sailing"), ("q3_pace", Answer.scale 5)]
      = .error .valueError :=
  ⟨rfl, rfl⟩

/-! ### Theorem for claim C3 (all-zero accumulators divide by zero) -/

/-- C3 (code bug): when every accumulator is 0 after aggregation (empty
response set, or only unknown question ids), the normalization is NOT
guarded — `max(dimension_scores.values())` is 0, the first division
`0 / 0` raises `ZeroDivisionError`, and no all-zero profile is
returned. -/
theorem c3_all_zero_divides_by_zero :
    analyzeResponsesDimensions [] = .error .zeroDivision ∧
    analyzeResponsesDimensions [("q99_unknown", Answer.scale 5)]
      = .error .zeroDivision :=
  ⟨rfl, rfl⟩

/-! ### Theorems for claim C4 (slider answers are not clamped) -/


/-- C4 counterexample: for the scale question `q3_pace` and the
out-of-range answer 15, the accumulators receive the raw `15` and
`10 − 15 = −5`, not `clamp(15,1,10) = 10` and `0` as the claim states. -/
theorem c4_slider_not_clamped_counterexample :
    accumScoresOf [("q3_pace", Answer.scale 15)] TravelDim.adventure = 15 ∧
    accumScoresOf [("q3_pace", Answer.scale 15)] TravelDim.comfort = -5 ∧
    clampSpec 15 1 10 = 10 ∧
    accumScoresOf [("q3_pace", Answer.scale 15)] TravelDim.adventure
      ≠ clampSpec 15 1 10 ∧
    accumScoresOf [("q3_pace", Answer.scale 15)] TravelDim.comfort
      ≠ 10 - clampSpec 15 1 10 := by
  with_unfolding_all decide

/-- C4 amended: for every scale question with exactly two (distinct)
dimensions and every numeric answer `v`, the loop body adds the RAW value
`v` to the first dimension and `10 − v` to the second (no clamping to
`[1, 10]`), increments both response counts by 1, and leaves every other
dimension untouched. -/
theorem c4_slider_adds_raw_value (q : QuizQuestion) (d1 d2 : TravelDim)
    (n : ℚ) (st : DimScores × DimCounts)
    (hq : q.qtype = .slider) (hd : q.dimensions = [d1, d2]) (hne : d1 ≠ d2) :
    applyQuestion q (.scale n) st
      = .ok (addAt (addAt st.1 d1 n) d2 (10 - n),
             bumpCount (bumpCount st.2 d1) d2) ∧
    addAt (addAt st.1 d1 n) d2 (10 - n) d1 = st.1 d1 + n ∧
    addAt (addAt st.1 d1 n) d2 (10 - n) d2 = st.1 d2 + (10 - n) ∧
    bumpCount (bumpCount st.2 d1) d2 d1 = st.2 d1 + 1 ∧
    bumpCount (bumpCount st.2 d1) d2 d2 = st.2 d2 + 1 ∧
    (∀ t, t ≠ d1 → t ≠ d2 →
      addAt (addAt st.1 d1 n) d2 (10 - n) t = st.1 t ∧
      bumpCount (bumpCount st.2 d1) d2 t = st.2 t) := by
  refine ⟨?_, ?_, ?_, ?_, ?_, ?_⟩
  · unfold applyQuestion
    rw [hq, hd]
  · simp [addAt, hne, Ne.symm hne]
  · simp [addAt, hne, Ne.symm hne]
  · simp [bumpCount, hne, Ne.symm hne]
  · simp [bumpCount, hne, Ne.symm hne]
  · intro t ht1 ht2
    constructor <;> simp [addAt, bumpCount, ht1, ht2]

/-- Witness for C4 amended: the table question `q3_pace` with answer 7 on
the initial state. -/
theorem c4_slider_adds_raw_value_witness :
    q3Pace.qtype = .slider ∧
    q3Pace.dimensions = [TravelDim.adventure, TravelDim.comfort] ∧
    TravelDim.adventure ≠ TravelDim.comfort ∧
    (applyQuestion q3Pace (.scale 7) (initScores, initCounts)
        = .ok (addAt (addAt initScores .adventure 7) .comfort (10 - 7),
               bumpCount (bumpCount initCounts .adventure) .comfort) ∧
      addAt (addAt initScores .adventure 7) .comfort (10 - 7)
          TravelDim.adventure = initScores .adventure + 7 ∧
      addAt (addAt initScores .adventure 7) .comfort (10 - 7)
          TravelDim.comfort = initScores .comfort + (10 - 7) ∧
      bumpCount (bumpCount initCounts .adventure) .comfort TravelDim.adventure
          = initCounts .adventure + 1 ∧
      bumpCount (bumpCount initCounts .adventure) .comfort TravelDim.comfort
          = initCounts .comfort + 1 ∧
      (∀ t, t ≠ TravelDim.adventure → t ≠ TravelDim.comfort →
        addAt (addAt initScores .adventure 7) .comfort (10 - 7) t
            = initScores t ∧
        bumpCount (bumpCount initCounts .adventure) .comfort t = initCounts t)) :=
  ⟨rfl, rfl, by decide,
    c4_slider_adds_raw_value q3Pace .adventure .comfort 7 (initScores, initCounts)
      rfl rfl (by decide)⟩

/-! ### Theorems for claim C6 (normalization invariant) -/

/-- `+=` preserves non-negativity of the accumulators. -/
lemma addAt_nonneg {s : DimScores} {d : TravelDim} {x : ℚ}
    (hs : ∀ t, 0 ≤ s t) (hx : 0 ≤ x) : ∀ t, 0 ≤ addAt s d x t := by
  intro t
  unfold addAt
  split
  · exact add_nonneg (hs t) hx
  · exact hs t

/-- A successful loop-body step on a range-valid answer preserves
non-negativity of the accumulators. -/
lemma applyQuestion_nonneg {q : QuizQuestion} {a : Answer}
    {st st2 : DimScores × DimCounts} (ha : answerValid a = true)
    (hs : ∀ t, 0 ≤ st.1 t) (h : applyQuestion q a st = .ok st2) :
    ∀ t, 0 ≤ st2.1 t := by
  cases hqt : q.qtype with
  | slider =>
    simp only [applyQuestion, hqt] at h
    split at h
    · cases a with
      | scale n =>
        have hn : 1 ≤ n ∧ n ≤ 10 := by simpa [answerValid] using ha
        injection h with h2
        subst h2
        exact addAt_nonneg (addAt_nonneg hs (by linarith [hn.1])) (by linarith [hn.2])
      | choice s0 => cases h
    · injection h with h2
      subst h2
      exact hs
  | multipleChoice =>
    simp only [applyQuestion, hqt] at h
    split at h
    · split at h
      · cases h
      · split at h
        · injection h with h2
          subst h2
          exact addAt_nonneg hs (by norm_num)
        · injection h with h2
          subst h2
          exact hs
    · cases h
  | selectbox =>
    simp only [applyQuestion, hqt] at h
    split at h
    · split at h
      · cases h
      · split at h
        · injection h with h2
          subst h2
          exact addAt_nonneg hs (by norm_num)
        · injection h with h2
          subst h2
          exact hs
    · cases h

/-- A successful response loop on range-valid answers preserves
non-negativity of the accumulators. -/
lemma accumulate_nonneg : ∀ (rs : List (String × Answer))
    (st st2 : DimScores × DimCounts),
    (∀ p ∈ rs, answerValid p.2 = true) → (∀ t, 0 ≤ st.1 t) →
    accumulate st rs = .ok st2 → ∀ t, 0 ≤ st2.1 t := by
  intro rs
  induction rs with
  | nil =>
    intro st st2 _ hs h
    simp only [accumulate, Except.ok.injEq] at h
    subst h
    exact hs
  | cons p rest ih =>
    intro st st2 hv hs h
    simp only [accumulate] at h
    cases hstep : stepResponse st p with
    | error e => rw [hstep] at h; cases h
    | ok stm =>
      rw [hstep] at h
      refine ih stm st2 (fun r hr => hv r (List.mem_cons_of_mem _ hr)) ?_ h
      unfold stepResponse at hstep
      cases hfq : findQuestion p.1 with
      | none =>
        rw [hfq] at hstep
        injection hstep with h2
        subst h2
        exact hs
      | some q =>
        rw [hfq] at hstep
        exact applyQuestion_nonneg (hv p (List.mem_cons_self _ _)) hs hstep

/-- Averaging preserves non-negativity. -/
lemma averageDims_nonneg {s : DimScores} {c : DimCounts}
    (hs : ∀ t, 0 ≤ s t) : ∀ t, 0 ≤ averageDims s c t := by
  intro t
  unfold averageDims
  split
  · exact div_nonneg (hs t) (by positivity)
  · exact hs t

/-- Every entry is at most the seven-way maximum. -/
lemma le_maxDimValue (s : DimScores) (t : TravelDim) : s t ≤ maxDimValue s := by
  cases t <;> simp [maxDimValue, le_max_iff]

/-- Scaling both arguments of a `max` by the positive factor `10/m`. -/
lemma max_scale (m : ℚ) (hm : 0 < m) (a b : ℚ) :
    max (a / m * 10) (b / m * 10) = max a b / m * 10 := by
  rcases le_total a b with hab | hab
  · rw [max_eq_right hab, max_eq_right]
    gcongr
  · rw [max_eq_left hab, max_eq_left]
    gcongr

/-- The maximum of the normalized map is exactly 10 when the maximum of
the input map is positive. -/
lemma maxDimValue_normalize {s : DimScores} (hm : 0 < maxDimValue s) :
    maxDimValue (normalizeDims s) = 10 := by
  show max (s .adventure / maxDimValue s * 10) _ = 10
  unfold normalizeDims
  rw [max_scale _ hm, max_scale _ hm, max_scale _ hm, max_scale _ hm,
      max_scale _ hm, max_scale _ hm]
  rw [show max (s .adventure) (max (s .comfort) (max (s .culture)
      (max (s .luxury) (max (s .nature) (max (s .urban) (s .social))))))
      = maxDimValue s from rfl]
  rw [div_self (ne_of_gt hm)]
  norm_num

/-- C6 amended: for every response set whose slider answers lie in the
declared `[1, 10]` range and on which the analysis succeeds (which forces
some accumulator to be positive — an all-zero aggregation raises instead,
see C3), the returned dimension map has maximum entry exactly 10 and
every entry in `[0, 10]`. -/
theorem c6_normalized_dimensions_bounds (rs : List (String × Answer))
    (dims : DimScores) (hv : scaleValid rs)
    (h : analyzeResponsesDimensions rs = .ok dims) :
    maxDimValue dims = 10 ∧ ∀ t, 0 ≤ dims t ∧ dims t ≤ 10 := by
  unfold analyzeResponsesDimensions at h
  split at h
  · cases h
  · rename_i s c heq
    split at h
    · cases h
    · rename_i hm
      injection h with h2
      subst h2
      have hsnn : ∀ t, 0 ≤ s t :=
        accumulate_nonneg rs (initScores, initCounts) (s, c) hv
          (fun _ => le_refl 0) heq
      have hann : ∀ t, 0 ≤ averageDims s c t := averageDims_nonneg hsnn
      have hm0 : 0 ≤ maxDimValue (averageDims s c) :=
        le_trans (hann .adventure) (le_maxDimValue _ _)
      have hmpos : 0 < maxDimValue (averageDims s c) :=
        lt_of_le_of_ne hm0 (Ne.symm hm)
      refine ⟨maxDimValue_normalize hmpos, fun t => ⟨?_, ?_⟩⟩
      · unfold normalizeDims
        exact mul_nonneg (div_nonneg (hann t) hm0) (by norm_num)
      · unfold normalizeDims
        have hle : averageDims s c t ≤ maxDimValue (averageDims s c) :=
          le_maxDimValue _ _
        have : averageDims s c t / maxDimValue (averageDims s c) ≤ 1 :=
          (div_le_one hmpos).mpr hle
        linarith

/-- Witness for C6 amended: the one-answer response set
`q3_pace ↦ 3` — dimensions `adventure = 30/7`, `comfort = 10`, rest 0. -/
theorem c6_normalized_dimensions_bounds_witness :
    scaleValid [("q3_pace", Answer.scale 3)] ∧
    analyzeResponsesDimensions [("q3_pace", Answer.scale 3)]
      = .ok (dimsOf [("q3_pace", Answer.scale 3)]) ∧
    (maxDimValue (dimsOf [("q3_pace", Answer.scale 3)]) = 10 ∧
      ∀ t, 0 ≤ dimsOf [("q3_pace", Answer.scale 3)] t ∧
        dimsOf [("q3_pace", Answer.scale 3)] t ≤ 10) :=
  ⟨by with_unfolding_all decide, by with_unfolding_all rfl,
    c6_normalized_dimensions_bounds [("q3_pace", Answer.scale 3)]
      (dimsOf [("q3_pace", Answer.scale 3)])
      (by with_unfolding_all decide) (by with_unfolding_all rfl)⟩

/-- C6 counterexample: the claim as stated (over ALL non-degenerate
response sets, with no range restriction) is false — the unclamped slider
answer 15 yields a positive adventure accumulator (non-degenerate by the
claim's own definition) yet a normalized comfort entry of −10/3 ∉ [0,10]. -/
theorem c6_unclamped_breaks_range :
    0 < accumScoresOf [("q3_pace", Answer.scale 15)] TravelDim.adventure ∧
    dimsOf [("q3_pace", Answer.scale 15)] TravelDim.comfort < 0 := by
  with_unfolding_all decide

/-! ### Theorems for claim C5 (seasonal score) -/

/-- `parseSeason` recognises exactly the four season names. -/
lemma parseSeason_eq_some {x : String} {σ : Season} :
    parseSeason x = some σ ↔ x = seasonName σ := by
  unfold parseSeason
  split_ifs with h1 h2 h3 h4 <;> cases σ <;> simp_all [seasonName]

/-- `parseSeason` inverts `seasonName`. -/
lemma parseSeason_name (σ : Season) : parseSeason (seasonName σ) = some σ := by
  cases σ <;> rfl

/-- Season names are distinct. -/
lemma seasonName_inj {a b : Season} : seasonName a = seasonName b ↔ a = b := by
  cases a <;> cases b <;> simp [seasonName]

/-- A string is in the season order exactly when it parses as a season. -/
lemma mem_seasonOrder_iff {x : String} :
    x ∈ seasonOrder ↔ (parseSeason x).isSome := by
  unfold parseSeason seasonOrder
  split_ifs with h1 h2 h3 h4 <;> simp_all

/-- The index of a recognised season name is the season's index. -/
lemma indexOf_eq_seasonIdx {x : String} {σ : Season}
    (h : parseSeason x = some σ) : seasonOrder.indexOf x = seasonIdx σ := by
  rw [parseSeason_eq_some] at h
  subst h
  cases σ <;> rfl

/-- The index of a season's name is the season's index. -/
lemma indexOf_seasonName (σ : Season) :
    seasonOrder.indexOf (seasonName σ) = seasonIdx σ := by
  cases σ <;> rfl

/-- A season is among the parsed entries exactly when its name is among
the string entries. -/
lemma mem_filterMap_parse {σ : Season} {parts : List String} :
    σ ∈ parts.filterMap parseSeason ↔ seasonName σ ∈ parts := by
  induction parts with
  | nil => simp
  | cons x xs ih =>
    cases hp : parseSeason x with
    | none =>
      have hx : seasonName σ ≠ x := by
        intro he
        rw [← he, parseSeason_name] at hp
        cases hp
      simp [List.filterMap_cons, hp, ih, List.mem_cons, hx]
    | some τ =>
      have hx : x = seasonName τ := parseSeason_eq_some.mp hp
      subst hx
      simp [List.filterMap_cons, parseSeason_name, ih, List.mem_cons,
        seasonName_inj]

/-- The code's `[season_order.index(s) for s in season_parts if s in
season_order]` equals the parsed seasons mapped through `seasonIdx`. -/
lemma filter_map_indexOf_eq (parts : List String) :
    (parts.filter (fun x => x ∈ seasonOrder)).map (fun x => seasonOrder.indexOf x)
      = (parts.filterMap parseSeason).map seasonIdx := by
  induction parts with
  | nil => simp
  | cons x xs ih =>
    cases hp : parseSeason x with
    | none =>
      have hx : x ∉ seasonOrder := by
        rw [mem_seasonOrder_iff, hp]
        simp
      simp [List.filter_cons, List.filterMap_cons, hp, hx, ih]
    | some τ =>
      have hx : x ∈ seasonOrder := by
        rw [mem_seasonOrder_iff, hp]
        simp
      simp [List.filter_cons, List.filterMap_cons, hp, hx, ih,
        indexOf_eq_seasonIdx hp]

/-- For a real month 1-12 the code's month table and the spec's season
table agree. -/
lemma monthToSeason_eq {m : ℕ} (h1 : 1 ≤ m) (h2 : m ≤ 12) :
    monthToSeason m = seasonName (seasonOfMonth m) := by
  interval_cases m <;> rfl

/-- C5 counterexample: for `best_season = "Fall"` and a January trip
(Winter), the code scores 3.0 (plain index distance |0−3| = 3) while the
claim's circular reading (Winter adjacent to Fall, distance 1) demands
6.0. -/
theorem c5_circular_counterexample :
    seasonalScore "Fall" (some 1) = 3 ∧
    specSeasonalScore circularSeasonDistance "Fall" 1 = 6 := by
  constructor <;> with_unfolding_all decide

/-- C5 amended: the seasonal score follows the claimed rule with the
PLAIN index distance in the season order `[Winter, Spring, Summer,
Fall]` in place of the circular one (so Winter and Fall are at distance
3, scoring 3.0, not adjacent): 9.0 when the travel month's season is
listed in `best_season`; else 7.0 when `best_season` contains "All" or
"Year-round"; else, among the resolvable listed seasons, 6.0 when the
nearest is at index distance 1 and 3.0 otherwise; 5.0 when no resolvable
season is listed; and 5.0 when no travel dates are given. -/
theorem c5_seasonal_score_linear_distance :
    (∀ s, seasonalScore s none = 5) ∧
    (∀ (s : String) (m : ℕ), 1 ≤ m → m ≤ 12 →
      seasonalScore s (some m) = specSeasonalScore linearSeasonDistance s m) := by
  constructor
  · intro s
    rfl
  · intro s m h1 h2
    have hts : monthToSeason m = seasonName (seasonOfMonth m) :=
      monthToSeason_eq h1 h2
    simp only [seasonalScore, specSeasonalScore]
    rw [hts]
    by_cases hmem : seasonName (seasonOfMonth m)
        ∈ (splitOnComma s).map (fun x => stripStr x)
    · rw [if_pos hmem, if_pos (mem_filterMap_parse.mpr hmem)]
    · rw [if_neg hmem, if_neg (fun hc => hmem (mem_filterMap_parse.mp hc))]
      by_cases hall : "All" ∈ (splitOnComma s).map (fun x => stripStr x)
          ∨ "Year-round" ∈ (splitOnComma s).map (fun x => stripStr x)
      · rw [if_pos hall, if_pos hall]
      · rw [if_neg hall, if_neg hall]
        rw [filter_map_indexOf_eq, indexOf_seasonName]
        rcases hL : List.filterMap parseSeason
            ((splitOnComma s).map (fun x => stripStr x)) with _ | ⟨σ, σs⟩
        · rfl
        · simp only [List.map_cons, List.foldl_map, linearSeasonDistance]

/-- Witness for C5 amended: `best_season = "Fall"` and an April trip
(Spring, index distance 2 to Fall) score 3.0 on both readings. -/
theorem c5_seasonal_score_linear_distance_witness :
    (1 ≤ 4 ∧ 4 ≤ 12 ∧
      seasonalScore "Fall" (some 4) = specSeasonalScore linearSeasonDistance "Fall" 4) ∧
    seasonalScore "Fall" none = 5 :=
  ⟨⟨by norm_num, by norm_num,
      c5_seasonal_score_linear_distance.2 "Fall" 4 (by norm_num) (by norm_num)⟩,
    c5_seasonal_score_linear_distance.1 "Fall"⟩

/-! ### Theorem for claim C9 (breakdown/recommendations round-trip) -/

/-- C9: for every destination and preference map, the component scores in
`get_recommendation_breakdown` are exactly the six component scores
`calculate_recommendations` computes for the same inputs (both call
`_calculate_individual_scores`), and both produce the same
confidence score. -/
theorem c9_breakdown_matches_recommendations (destination : Destination)
    (prefs : TripPrefs) :
    (getRecommendationBreakdown destination prefs).component_scores
      = calculateIndividualScores destination prefs ∧
    (recommendationEntry destination prefs).lookup "breakdown"
      = some (.scores (calculateIndividualScores destination prefs)) ∧
    (recommendationEntry destination prefs).lookup "budget_score"
      = some (.num (calculateIndividualScores destination prefs).budget_score) ∧
    (recommendationEntry destination prefs).lookup "weather_score"
      = some (.num (calculateIndividualScores destination prefs).weather_score) ∧
    (recommendationEntry destination prefs).lookup "crowd_score"
      = some (.num (calculateIndividualScores destination prefs).crowd_score) ∧
    (recommendationEntry destination prefs).lookup "dna_match"
      = some (.num (calculateIndividualScores destination prefs).dna_match) ∧
    (recommendationEntry destination prefs).lookup "confidence_score"
      = some (.real (getRecommendationBreakdown destination prefs).confidence_score) ∧
    calculateRecommendations [destination] prefs
      = [recommendationEntry destination prefs] :=
  ⟨rfl, rfl, rfl, rfl, rfl, rfl, rfl, rfl⟩

/-! ### Theorem for claim C10 (frame effect of the enrichment) -/

/-- C10: the recommendation dict built by `calculate_recommendations` is
an enriched copy — the input dict keeps the static catalog baselines
under `weather_score`/`crowd_score`, while in the output those keys are
overwritten with the computed component scores, and
`category_score`/`seasonal_score` appear only inside the nested
`breakdown` map, not as top-level keys. -/
theorem c10_enrichment_overwrites_baselines (destination : Destination)
    (prefs : TripPrefs) :
    (recommendationEntry destination prefs).lookup "weather_score"
      = some (.num (calculateIndividualScores destination prefs).weather_score) ∧
    (recommendationEntry destination prefs).lookup "crowd_score"
      = some (.num (calculateIndividualScores destination prefs).crowd_score) ∧
    (destToDict destination).lookup "weather_score"
      = some (.num destination.weather_score) ∧
    (destToDict destination).lookup "crowd_score"
      = some (.num destination.crowd_score) ∧
    (recommendationEntry destination prefs).lookup "category_score" = none ∧
    (recommendationEntry destination prefs).lookup "seasonal_score" = none ∧
    (recommendationEntry destination prefs).lookup "breakdown"
      = some (.scores (calculateIndividualScores destination prefs)) :=
  ⟨rfl, rfl, rfl, rfl, rfl, rfl, rfl⟩

end Voyageai
